import Mathlib

/-!
# Verification of the portStential port scanner

Shallow embedding of the scanning core of the repository
(`scanner_tool/scanner_engine.py`, `scanner_tool/threading_module.py`,
`scanner_tool/flask_web_interface.py`) and proofs about it.

Strings coming from the network or from user input are modelled as
`List Char`; Python dictionaries with a fixed key set are modelled as
structures; Python functions that may raise are modelled with `Except`;
network interactions (socket connects, banner reads, TLS handshakes)
are modelled as oracle parameters giving the outcome of each interaction.
-/

namespace PortStential

/-! ## Python string helpers

Models of the Python string primitives the parsing code uses:
`str.split(sep)`, `str.strip()`, and `int(str)`.
-/

/-- Python digit test for the characters `int()` accepts. -/
def isPyDigit (c : Char) : Bool := '0' ≤ c && c ≤ '9'

/-- Whitespace characters stripped by `str.strip()` and by `int()`. -/
def isPySpace (c : Char) : Bool := c = ' ' || c = '\t' || c = '\n' || c = '\r'

/-- Model of Python `str.split(sep)` for a one-character separator:
`"a,,b".split(',') = ['a','','b']` and `"".split(',') = ['']`. -/
def splitOnChar (sep : Char) : List Char → List (List Char)
  | [] => [[]]
  | c :: cs =>
    let r := splitOnChar sep cs
    if c = sep then [] :: r
    else
      match r with
      | [] => [[c]]
      | h :: t => (c :: h) :: t

/-- Model of Python `str.strip()` (whitespace removal at both ends). -/
def pyStrip (cs : List Char) : List Char :=
  ((cs.dropWhile isPySpace).reverse.dropWhile isPySpace).reverse

/-- Accumulate a decimal digit string; fails on a non-digit character. -/
def digitsToNatAux : Nat → List Char → Option Nat
  | acc, [] => some acc
  | acc, c :: cs =>
    if isPyDigit c then digitsToNatAux (acc * 10 + (c.toNat - '0'.toNat)) cs
    else none

/-- Decimal value of a non-empty all-digit string, `none` otherwise. -/
def digitsToNat : List Char → Option Nat
  | [] => none
  | cs => digitsToNatAux 0 cs

/-- Model of Python `int(s)` on the decimal strings this program feeds it:
surrounding whitespace is stripped, an optional sign is accepted, and the
remainder must be a non-empty digit string; otherwise `int` raises
`ValueError("invalid literal for int() ...")`. -/
def pyInt (cs : List Char) : Except String Int :=
  match pyStrip cs with
  | '-' :: ds =>
    match digitsToNat ds with
    | some n => .ok (-(n : Int))
    | none => .error "invalid literal for int() with base 10"
  | '+' :: ds =>
    match digitsToNat ds with
    | some n => .ok (n : Int)
    | none => .error "invalid literal for int() with base 10"
  | ds =>
    match digitsToNat ds with
    | some n => .ok (n : Int)
    | none => .error "invalid literal for int() with base 10"

/-- Model of Python `list(range(a, b + 1))`: the integers from `a` to `b`
inclusive, empty when `b < a`. -/
def intRangeIncl (a b : Int) : List Int :=
  (List.range (b + 1 - a).toNat).map (fun (i : Nat) => a + (i : Int))

/-- Insert into an ascending duplicate-free list, keeping it so. -/
def insertUnique (x : Int) : List Int → List Int
  | [] => [x]
  | y :: ys =>
    if x < y then x :: y :: ys
    else if x = y then y :: ys
    else y :: insertUnique x ys

/-- Model of Python `sorted(list(set(l)))`: the ascending duplicate-free
list with the same members as `l`. -/
def sortedUnique (l : List Int) : List Int :=
  l.foldl (fun acc x => insertUnique x acc) []

/-- Run a fallible step over a list of parts, threading the accumulator;
the first error aborts, mirroring an exception escaping a Python loop. -/
def foldSteps (step : List Int → List Char → Except String (List Int)) :
    List Int → List (List Char) → Except String (List Int)
  | acc, [] => .ok acc
  | acc, p :: ps =>
    match step acc p with
    | .ok acc' => foldSteps step acc' ps
    | .error e => .error e

/-! ## Port-spec parsing

Two distinct parsers exist in the source: `parse_port_range` in
`flask_web_interface.py` (lines 2146-2168), used by the scan API, and
`ScannerEngine.validate_port_range` in `scanner_engine.py`
(lines 989-1029), which has no caller under `src/`.
Error messages are kept constant where Python interpolates the offending
part into them; no claim depends on message contents.
-/

/-- `DEFAULT_PORTS` from `flask_web_interface.py` line 79. -/
def DEFAULT_PORTS : List Int :=
  [21, 22, 23, 25, 53, 80, 110, 123, 135, 139, 143, 389, 443, 445, 993,
   995, 1723, 3306, 3389, 5900, 8080]

/-- One loop iteration of `parse_port_range` (`flask_web_interface.py`
lines 2161-2166): a section containing a dash is split once and expanded
with `range(start, end + 1)`; otherwise the section is parsed as a single
integer. No bounds are checked anywhere. -/
def parse_step (acc : List Int) (sec : List Char) : Except String (List Int) :=
  if sec.contains '-' then
    match splitOnChar '-' sec with
    | [a, b] =>
      match pyInt a, pyInt b with
      | .ok s, .ok e => .ok (acc ++ intRangeIncl s e)
      | .error err, _ => .error err
      | _, .error err => .error err
    | _ => .error "values to unpack"
  else
    match pyInt sec with
    | .ok p => .ok (acc ++ [p])
    | .error err => .error err

/-- Model of `parse_port_range` (`flask_web_interface.py` lines 2146-2168):
empty input returns `DEFAULT_PORTS`; otherwise the comma-separated sections
are expanded and the result is `sorted(list(set(ports)))`. -/
def parse_port_range (cs : List Char) : Except String (List Int) :=
  if cs = [] then .ok DEFAULT_PORTS
  else
    match foldSteps parse_step [] (splitOnChar ',' cs) with
    | .ok l => .ok (sortedUnique l)
    | .error e => .error e

/-- One loop iteration of `ScannerEngine.validate_port_range`
(`scanner_engine.py` lines 1008-1026): the part is stripped, ranges are
checked for `start < 1 or end > 65535` and `start > end`, single ports
for `port < 1 or port > 65535`; violations raise `ValueError`. -/
def validate_step (acc : List Int) (part0 : List Char) :
    Except String (List Int) :=
  if (pyStrip part0).contains '-' then
    match splitOnChar '-' (pyStrip part0) with
    | [a, b] =>
      match pyInt a, pyInt b with
      | .ok s, .ok e =>
        if s < 1 ∨ e > 65535 then .error "Ports must be between 1 and 65535"
        else if s > e then .error "Invalid range (start > end)"
        else .ok (acc ++ intRangeIncl s e)
      | .error err, _ => .error err
      | _, .error err => .error err
    | _ => .error "values to unpack"
  else
    match pyInt (pyStrip part0) with
    | .ok p =>
      if p < 1 ∨ p > 65535 then .error "Port must be between 1 and 65535"
      else .ok (acc ++ [p])
    | .error err => .error err

/-- Model of `ScannerEngine.validate_port_range` (`scanner_engine.py`
lines 989-1029): empty input raises; otherwise each comma-separated part
is validated and the result is `sorted(list(valid_ports))`. -/
def validate_port_range (cs : List Char) : Except String (List Int) :=
  if cs = [] then .error "Port range cannot be empty"
  else
    match foldSteps validate_step [] (splitOnChar ',' cs) with
    | .ok l => .ok (sortedUnique l)
    | .error e => .error e

/-! ## Port Prober

`ScannerEngine.test_port` (`scanner_engine.py` lines 526-555) creates a
socket, calls `connect_ex`, and returns `result == 0`; any exception is
caught and yields `False`. The socket-level outcome is modelled as an
`Except`: `.ok code` is the `connect_ex` return value (0 exactly when the
TCP connect succeeded within the timeout), `.error e` is an exception
raised inside the `try` block (e.g. DNS failure at this stage).
-/

/-- Model of `ScannerEngine.test_port`, as a function of the socket
outcome for this host and port. -/
def test_port (outcome : Except String Int) : Bool :=
  match outcome with
  | .ok code => code == 0
  | .error _ => false

/-! ## Service Classifier -/

/-- `SERVICE_MAP` from `scanner_engine.py` lines 465-508. -/
def SERVICE_MAP : List (Nat × String) :=
  [(21, "FTP"), (22, "SSH"), (23, "Telnet"), (25, "SMTP"), (53, "DNS"),
   (80, "HTTP"), (110, "POP3"), (123, "NTP"), (137, "NetBIOS"),
   (138, "NetBIOS"), (139, "NetBIOS"), (143, "IMAP"), (389, "LDAP"),
   (443, "HTTPS"), (445, "SMB"), (993, "IMAPS"), (995, "POP3S"),
   (1723, "PPTP"), (3306, "MySQL"), (3389, "RDP"), (5900, "VNC"),
   (8080, "HTTP-Proxy")]

/-- Model of `ScannerEngine.fetch_service_info` (`scanner_engine.py`
lines 557-577): a `SERVICE_MAP` hit wins; otherwise
`socket.getservbyport` is consulted (modelled as the oracle
`servByPort`, `none` when it raises); on total miss, `"Unknown"`. -/
def fetch_service_info (servByPort : Nat → Option String) (port : Nat) :
    String :=
  match SERVICE_MAP.lookup port with
  | some s => s
  | none =>
    match servByPort port with
    | some s => s
    | none => "Unknown"

/-! ## Banner/Protocol Inspector

`ScannerEngine.grab_banner` (`scanner_engine.py` lines 579-650)
dispatches on service name and port number. Its helpers
(`get_ssl_info`, `grab_http_banner`, `grab_protocol_banner`) perform
network interaction and each absorb their own failures, so they are
modelled as oracle-provided outcomes: `get_ssl_info` always returns a
certificate record (with `valid = False` and an `error` string on
handshake failure), `grab_http_banner` always returns a
banner/server/version triple (all empty on failure), and
`grab_protocol_banner` always returns a string (empty on failure).
-/

/-- The dictionary built by `ScannerEngine.get_ssl_info`
(`scanner_engine.py` lines 771-835). -/
structure SSLRecord where
  valid : Bool
  issued_to : String
  issued_by : String
  valid_from : String
  valid_until : String
  version : String
  serial_number : String
  signature_algorithm : String
  error : Option String
deriving DecidableEq, Repr

/-- The record `get_ssl_info` returns when the connection or handshake
raises (`scanner_engine.py` lines 773-782 and 831-833): the initial
field values plus the error string. -/
def ssl_fail_record (e : String) : SSLRecord :=
  ⟨false, "Unknown", "Unknown", "", "", "", "", "", some e⟩

/-- The dictionary returned by `ScannerEngine.grab_http_banner`
(`scanner_engine.py` lines 706-710); all fields empty on failure. -/
structure HttpInfo where
  banner : String
  server : String
  version : String
deriving DecidableEq, Repr

/-- The dictionary built by `ScannerEngine.grab_banner`
(`scanner_engine.py` lines 591-596); `ssl_cert` is `none` while it still
holds the initial empty dict `{}`. -/
structure BannerInfo where
  banner : String
  version : String
  server : String
  ssl_cert : Option SSLRecord
deriving DecidableEq, Repr

/-- The initial `banner_info` dictionary of `grab_banner`. -/
def emptyBannerInfo : BannerInfo := ⟨"", "", "", none⟩

/-- Leftmost match of the Python regex `(\d+\.\d+\.\d+)` attempted at the
head of the string. -/
def matchV3At (cs : List Char) : Option (List Char) :=
  let d1 := cs.takeWhile isPyDigit
  let r1 := cs.dropWhile isPyDigit
  if d1 = [] then none
  else
    match r1 with
    | '.' :: r2 =>
      let d2 := r2.takeWhile isPyDigit
      let r3 := r2.dropWhile isPyDigit
      if d2 = [] then none
      else
        match r3 with
        | '.' :: r4 =>
          let d3 := r4.takeWhile isPyDigit
          if d3 = [] then none
          else some (d1 ++ '.' :: d2 ++ '.' :: d3)
        | _ => none
    | _ => none

/-- Model of `re.search(r'(\d+\.\d+\.\d+)', s)`: try each start position
left to right. -/
def searchV3 : List Char → Option (List Char)
  | [] => none
  | c :: cs =>
    match matchV3At (c :: cs) with
    | some m => some m
    | none => searchV3 cs

/-- Match of `SSH-(\d+\.\d+)-([^\s]+)` attempted at the head. -/
def matchSSHAt (cs : List Char) : Option (List Char × List Char) :=
  match cs with
  | 'S' :: 'S' :: 'H' :: '-' :: r =>
    let d1 := r.takeWhile isPyDigit
    let r1 := r.dropWhile isPyDigit
    if d1 = [] then none
    else
      match r1 with
      | '.' :: r2 =>
        let d2 := r2.takeWhile isPyDigit
        let r3 := r2.dropWhile isPyDigit
        if d2 = [] then none
        else
          match r3 with
          | '-' :: r4 =>
            let g2 := r4.takeWhile (fun c => !(isPySpace c))
            if g2 = [] then none else some (d1 ++ '.' :: d2, g2)
          | _ => none
      | _ => none
  | _ => none

/-- Model of `re.search(r'SSH-(\d+\.\d+)-([^\s]+)', s)`. -/
def searchSSH : List Char → Option (List Char × List Char)
  | [] => none
  | c :: cs =>
    match matchSSHAt (c :: cs) with
    | some m => some m
    | none => searchSSH cs

/-- Match of `ESMTP ([^\s]+)` attempted at the head. -/
def matchESMTPAt : List Char → Option (List Char)
  | 'E' :: 'S' :: 'M' :: 'T' :: 'P' :: ' ' :: r =>
    let g := r.takeWhile (fun c => !(isPySpace c))
    if g = [] then none else some g
  | _ => none

/-- Model of `re.search(r'ESMTP ([^\s]+)', s)`. -/
def searchESMTP : List Char → Option (List Char)
  | [] => none
  | c :: cs =>
    match matchESMTPAt (c :: cs) with
    | some m => some m
    | none => searchESMTP cs

/-- Trigger condition of the TLS branch (`scanner_engine.py` line 600). -/
def ssl_branch (service : String) (port : Nat) : Bool :=
  service == "HTTPS" || service == "IMAPS" || service == "POP3S" ||
  service == "SMTPS" || port == 443 || port == 465 || port == 636 ||
  port == 993 || port == 995

/-- Trigger condition of the HTTP branch (`scanner_engine.py` line 606). -/
def http_branch (service : String) (port : Nat) : Bool :=
  service == "HTTP" || service == "HTTPS" || port == 80 || port == 443 ||
  port == 8080 || port == 8443

/-- The banner-info value after the TLS branch of `grab_banner`
(`scanner_engine.py` lines 600-603): `get_ssl_info` always returns a
non-empty dict, so when the branch triggers its result is always
stored into `ssl_cert`. -/
def tls_step (sslRes : SSLRecord) (port : Nat) (service : String) :
    BannerInfo :=
  if ssl_branch service port then
    { emptyBannerInfo with ssl_cert := some sslRes }
  else emptyBannerInfo

/-- Version extraction of the FTP branch (`scanner_engine.py` lines
616-619): first `(\d+\.\d+\.\d+)` match in the banner, else the
previous value. -/
def ftp_version (banner fallback : String) : String :=
  match searchV3 banner.data with
  | some v => String.mk v
  | none => fallback

/-- Version extraction of the SSH branch (`scanner_engine.py` lines
626-629): groups of `SSH-(\d+\.\d+)-([^\s]+)` joined by a space, else
the previous value. -/
def ssh_version (banner fallback : String) : String :=
  match searchSSH banner.data with
  | some g => String.mk g.1 ++ " " ++ String.mk g.2
  | none => fallback

/-- Server extraction of the SMTP branch (`scanner_engine.py` lines
636-639): group of `ESMTP ([^\s]+)`, else the previous value. -/
def smtp_server_name (banner fallback : String) : String :=
  match searchESMTP banner.data with
  | some g => String.mk g
  | none => fallback

/-- Model of `ScannerEngine.grab_banner` (`scanner_engine.py` lines
579-650) as a function of the helper outcomes `sslRes` (what
`get_ssl_info` returned), `httpRes` (what `grab_http_banner` returned)
and `protoRes` (what `grab_protocol_banner` returned). The TLS branch
runs first and only sets `ssl_cert`; then an exclusive if/elif chain
picks HTTP (whose dict `update` overwrites banner, server and version),
FTP, SSH, SMTP, or the generic fallback (whose guard
`not banner_info["banner"]` always holds at that point). The
surrounding `try/except` makes the Python function total; the model is
total by construction. -/
def grab_banner (sslRes : SSLRecord) (httpRes : HttpInfo)
    (protoRes : String) (port : Nat) (service : String) : BannerInfo :=
  let b1 := tls_step sslRes port service
  if http_branch service port then
    { b1 with banner := httpRes.banner, server := httpRes.server,
              version := httpRes.version }
  else if service == "FTP" || port == 21 then
    if protoRes = "" then b1
    else
      { b1 with banner := protoRes,
                version := ftp_version protoRes b1.version }
  else if service == "SSH" || port == 22 then
    if protoRes = "" then b1
    else
      { b1 with banner := protoRes,
                version := ssh_version protoRes b1.version }
  else if service == "SMTP" || port == 25 then
    if protoRes = "" then b1
    else
      { b1 with banner := protoRes,
                server := smtp_server_name protoRes b1.server }
  else if b1.banner = "" then
    if protoRes = "" then b1 else { b1 with banner := protoRes }
  else b1

/-- The receive loop of `ScannerEngine.grab_http_banner`
(`scanner_engine.py` lines 734-746), as a function of the sizes of the
successive chunks `recv(4096)` returns (each is at most 4096; the list
ends where the socket times out): an empty chunk stops the loop, and
after each append the loop stops when the accumulated size exceeds 8192.
Returns the total number of response bytes accumulated. -/
def http_read_loop : Nat → List Nat → Nat
  | acc, [] => acc
  | acc, c :: cs =>
    if c = 0 then acc
    else
      let acc' := acc + c
      if acc' > 8192 then acc' else http_read_loop acc' cs

/-! ## Scan order randomization

`random.shuffle(ports)` (`scanner_engine.py` line 927) permutes the
caller's list in place with a Fisher-Yates walk: for `i` from
`len(x) - 1` down to `1`, swap `x[i]` with `x[j]` where `j` is drawn
uniformly from `[0, i]`. The random draws are modelled by a function
`rand` reduced into range with a modulus.
-/

/-- Swap the elements at positions `i` and `j`, identity when either
index is out of range. -/
def listSwap (xs : List Nat) (i j : Nat) : List Nat :=
  match xs[i]?, xs[j]? with
  | some a, some b => (xs.set i b).set j a
  | _, _ => xs

/-- The descending swap walk of `random.shuffle`, from index `i` down to
index 1. -/
def fyGo (rand : Nat → Nat) : Nat → List Nat → List Nat
  | 0, xs => xs
  | i + 1, xs => fyGo rand i (listSwap xs (i + 1) (rand (i + 1) % (i + 2)))

/-- Model of `random.shuffle(ports)`. -/
def pyShuffle (rand : Nat → Nat) (xs : List Nat) : List Nat :=
  fyGo rand (xs.length - 1) xs

/-! ## Worker-pool sizing

`ScannerEngine.scan_ports` (`scanner_engine.py` lines 896-923) caps the
requested thread count at twice the CPU count, then at the number of
ports; `ThreadingModule.execute_tasks` (`threading_module.py` lines
40-56) further caps at the number of tasks and at
`MAX_THREAD_COUNT = min(100, cpu_count * 5)`; the final value is passed
to `ThreadPoolExecutor(max_workers=...)`.
-/

/-- `max_recommended_threads = cpu_count * 2` and the cap applied to the
requested count (`scanner_engine.py` lines 906-914). -/
def capped_thread_count (tc cpu : Nat) : Nat :=
  if tc > cpu * 2 then cpu * 2 else tc

/-- `effective_thread_count = min(thread_count, len(ports))`
(`scanner_engine.py` line 921). -/
def effective_thread_count (tc cpu nports : Nat) : Nat :=
  min (capped_thread_count tc cpu) nports

/-- `MAX_THREAD_COUNT` from `threading_module.py` line 27. -/
def MAX_THREAD_COUNT (cpu : Nat) : Nat := min 100 (cpu * 5)

/-- `optimal_thread_count = min(thread_count, len(tasks),
MAX_THREAD_COUNT)` from `threading_module.py` line 45. -/
def optimal_thread_count (tc ntasks cap : Nat) : Nat :=
  min (min tc ntasks) cap

/-! ## Scan Coordinator -/

/-- The network-outcome oracle for one scan: per port, the socket
outcome of `test_port`, the `socket.getservbyport` answer, and the
results of the three banner helpers. -/
structure NetOracle where
  connect : Nat → Except String Int
  servByPort : Nat → Option String
  ssl : Nat → SSLRecord
  http : Nat → HttpInfo
  proto : Nat → String

/-- The tuple returned by `ScannerEngine.scan_port_worker`
(`scanner_engine.py` line 872); `banner_info` is `none` while it still
holds the initial `{}` of a closed port. -/
structure WorkerResult where
  port : Nat
  is_open : Bool
  service : String
  banner_info : Option BannerInfo
deriving DecidableEq, Repr

/-- One invocation of the scan progress callback: either the per-port
call `progress_callback(port, is_open)` made by `scan_port_worker`
(`scanner_engine.py` line 864), or the advisory call
`progress_callback(0, warning_string)` made by `scan_ports` when the
requested thread count exceeds the recommended maximum
(`scanner_engine.py` line 917). -/
inductive ProgressEvent where
  | portDone (port : Nat) (is_open : Bool)
  | advisory (port : Nat) (msg : String)
deriving DecidableEq, Repr

/-- Whether an event is a per-port completion event. -/
def isPortEvent : ProgressEvent → Bool
  | .portDone _ _ => true
  | .advisory _ _ => false

/-- The port argument the callback received. -/
def eventPort : ProgressEvent → Nat
  | .portDone p _ => p
  | .advisory p _ => p

/-- Model of `ScannerEngine.scan_port_worker` (`scanner_engine.py` lines
837-872) with a progress callback supplied: probes the port, classifies
and inspects it only when open, and invokes the callback exactly once. -/
def scan_port_worker (o : NetOracle) (port : Nat) :
    WorkerResult × ProgressEvent :=
  let is_open := test_port (o.connect port)
  let service := if is_open then fetch_service_info o.servByPort port else ""
  let banner_info :=
    if is_open then
      some (grab_banner (o.ssl port) (o.http port) (o.proto port) port service)
    else none
  (⟨port, is_open, service, banner_info⟩, .portDone port is_open)

/-- The per-port dictionary stored for an open port (`scanner_engine.py`
lines 944-950), built with `banner_info.get(key, default)`. -/
structure PortData where
  service : String
  banner : String
  version : String
  server : String
  ssl_cert : Option SSLRecord
deriving DecidableEq, Repr

/-- Build the `port_data` dictionary from a worker result. -/
def mkPortData (r : WorkerResult) : PortData :=
  match r.banner_info with
  | some b => ⟨r.service, b.banner, b.version, b.server, b.ssl_cert⟩
  | none => ⟨r.service, "", "", "", none⟩

/-- Python dict assignment `open_ports[port] = port_data`: replace in
place if the key exists, else append. -/
def dictInsert (m : List (Nat × PortData)) (k : Nat) (v : PortData) :
    List (Nat × PortData) :=
  if m.any (fun kv => kv.1 == k) then
    m.map (fun kv => if kv.1 == k then (k, v) else kv)
  else m ++ [(k, v)]

/-- The result-collection loop of `scan_ports` (`scanner_engine.py`
lines 940-951): only results with `is_open` are inserted. -/
def collect_open (results : List WorkerResult) : List (Nat × PortData) :=
  results.foldl
    (fun acc r => if r.is_open then dictInsert acc r.port (mkPortData r) else acc)
    []

/-- Everything observable about one `scan_ports` call: the returned
dictionary of open ports, the sequence of progress-callback invocations,
the ports probed (one `test_port` call each, in dispatch order), the
worker count handed to `ThreadPoolExecutor`, and the contents of the
caller's `ports` list after the in-place shuffle. -/
structure ScanPortsOut where
  open_ports : List (Nat × PortData)
  events : List ProgressEvent
  probes : List Nat
  pool_workers : Nat
  final_ports : List Nat
deriving Repr

/-- Model of `ScannerEngine.scan_ports` (`scanner_engine.py` lines
874-954) together with `ThreadingModule.execute_tasks`
(`threading_module.py` lines 29-77) on a full run (the stop event is
cleared on entry and never set, so every task is submitted and every
future collected; the concurrent execution is sequentialized, which
preserves counts and per-port data). Steps: cap the thread count and
emit the one-time advisory callback if the request exceeded
`cpu * 2`; shuffle the ports in place; build one task per port; hand
`min(effective_thread_count, len(tasks), MAX_THREAD_COUNT)` workers to
the pool; run every task; keep the open ports. -/
def scan_ports (o : NetOracle) (rand : Nat → Nat) (ports : List Nat)
    (thread_count cpu : Nat) : ScanPortsOut :=
  let warnEvents : List ProgressEvent :=
    if thread_count > cpu * 2 then
      [.advisory 0 "WARNING: requested threads exceed the recommended maximum"]
    else []
  let etc0 := effective_thread_count thread_count cpu ports.length
  let shuffled := pyShuffle rand ports
  let runs := shuffled.map (scan_port_worker o)
  { open_ports := collect_open (runs.map (·.1))
    events := warnEvents ++ runs.map (·.2)
    probes := shuffled
    pool_workers := optimal_thread_count etc0 shuffled.length (MAX_THREAD_COUNT cpu)
    final_ports := shuffled }

/-! ## Scan Session Registry (web layer)

`flask_web_interface.py` keeps per-scan state in the global
`active_scans` dict and copies results into the global `scan_results`
dict. `complete_scan` (lines 2273-2289) overwrites the status
unconditionally; `api_stop_scan` (lines 2735-2749) calls it with
`'stopped'` whenever the scan id exists; the background `scan_worker`
thread (lines 2170-2251) is never signalled and, when `scan_ports`
returns, stores its results and calls `complete_scan` with
`'completed'` (or `'failed'` on an exception).
-/

/-- Scan status values used by the web layer. -/
inductive ScanStatus where
  | running
  | completed
  | failed
  | stopped
deriving DecidableEq, Repr

/-- The per-scan entry of `active_scans` (the fields the claims are
about) plus the `scan_results[scan_id]` copy written by
`complete_scan` (`none` until the first `complete_scan` call). -/
structure ScanState where
  status : ScanStatus
  results : List (Nat × PortData)
  stored_results : Option (List (Nat × PortData))
deriving DecidableEq, Repr

/-- The entry created at the top of `scan_worker`
(`flask_web_interface.py` lines 2184-2190). -/
def initScanState : ScanState := ⟨.running, [], none⟩

/-- Model of `complete_scan` (`flask_web_interface.py` lines 2273-2289):
unconditionally overwrite the status and copy the current results into
the global results registry. -/
def complete_scan (st : ScanState) (s : ScanStatus) : ScanState :=
  { st with status := s, stored_results := some st.results }

/-- Model of `api_stop_scan` (`flask_web_interface.py` lines 2735-2749)
on an existing scan: `complete_scan(scan_id, 'stopped')`. -/
def api_stop_scan (st : ScanState) : ScanState := complete_scan st .stopped

/-- The operations that can hit one scan's registry entry after it is
created: a stop request from the API, and the worker thread finishing
(with its resolution failure, its unexpected-exception failure, or its
normal completion carrying the scan output). -/
inductive ScanEvent where
  | stopRequest
  | workerResolveFail
  | workerError
  | workerFinish (out : List (Nat × PortData))
deriving Repr

/-- One registry transition, as the code performs it. -/
def scanStep (st : ScanState) : ScanEvent → ScanState
  | .stopRequest => api_stop_scan st
  | .workerResolveFail => complete_scan st .failed
  | .workerError => complete_scan st .failed
  | .workerFinish out => complete_scan { st with results := out } .completed

/-- Observable outcome of one `scan_worker` run
(`flask_web_interface.py` lines 2170-2251): the final registry entry and
the list of ports probed. -/
structure ScanWorkerOut where
  state : ScanState
  probes : List Nat
deriving Repr

/-- Model of `scan_worker` with the host-resolution outcome made
explicit (`socket.gethostbyname` either returns an address or raises):
on failure the scan is marked `'failed'` with its empty results and no
port is ever probed; on success `scan_ports` runs and the scan is marked
`'completed'`. -/
def scan_worker (resolve : Option String) (o : NetOracle)
    (rand : Nat → Nat) (ports : List Nat) (tc cpu : Nat) : ScanWorkerOut :=
  match resolve with
  | none => ⟨scanStep initScanState .workerResolveFail, []⟩
  | some _ =>
    let out := scan_ports o rand ports tc cpu
    ⟨scanStep initScanState (.workerFinish out.open_ports), out.probes⟩

/-! ## Engine state frame for the shuffle step -/

/-- The mutable state visible at the shuffle step (`scanner_engine.py`
line 927): the three engine timeout fields set in `__init__` and the
caller's ports list, which `random.shuffle` permutes in place. -/
structure EngineState where
  timeout : Rat
  banner_timeout : Rat
  ssl_timeout : Rat
  ports : List Nat
deriving Repr

/-- The shuffle step as a state transformer: only the ports list
changes, and only by reordering. -/
def shuffle_step (rand : Nat → Nat) (s : EngineState) : EngineState :=
  { s with ports := pyShuffle rand s.ports }

/-! ## Concrete instances used by witnesses and counterexamples -/

/-- A network where every connect attempt raises (all ports closed). -/
def closedNet : NetOracle :=
  ⟨fun _ => .error "gaierror", fun _ => none,
   fun _ => ssl_fail_record "refused", fun _ => ⟨"", "", ""⟩, fun _ => ""⟩

/-- A network where every connect succeeds and every banner helper
comes back empty. -/
def openNet : NetOracle :=
  ⟨fun _ => .ok 0, fun _ => none,
   fun _ => ssl_fail_record "refused", fun _ => ⟨"", "", ""⟩, fun _ => ""⟩

/-- A degenerate random source: always draw 0. -/
def zeroRand : Nat → Nat := fun _ => 0

/-! ## Supporting lemmas -/

theorem mem_insertUnique {x p : Int} {l : List Int}
    (h : p ∈ insertUnique x l) : p = x ∨ p ∈ l := by
  induction l with
  | nil =>
    simp [insertUnique] at h
    exact Or.inl h
  | cons y ys ih =>
    simp only [insertUnique] at h
    split at h
    · rcases List.mem_cons.mp h with h1 | h2
      · exact Or.inl h1
      · exact Or.inr h2
    · split at h
      · exact Or.inr h
      · rcases List.mem_cons.mp h with h1 | h2
        · exact Or.inr (by simp [h1])
        · rcases ih h2 with h3 | h4
          · exact Or.inl h3
          · exact Or.inr (by simp [h4])

theorem mem_foldl_insertUnique {p : Int} :
    ∀ (l acc : List Int),
      p ∈ l.foldl (fun a x => insertUnique x a) acc → p ∈ acc ∨ p ∈ l := by
  intro l
  induction l with
  | nil => intro acc h; exact Or.inl h
  | cons x xs ih =>
    intro acc h
    simp only [List.foldl_cons] at h
    rcases ih _ h with h1 | h2
    · rcases mem_insertUnique h1 with h3 | h4
      · exact Or.inr (by simp [h3])
      · exact Or.inl h4
    · exact Or.inr (by simp [h2])

theorem mem_sortedUnique {p : Int} {l : List Int}
    (h : p ∈ sortedUnique l) : p ∈ l := by
  rcases mem_foldl_insertUnique l [] h with h1 | h2
  · simp at h1
  · exact h2

theorem mem_intRangeIncl {a b p : Int} (h : p ∈ intRangeIncl a b) :
    a ≤ p ∧ p ≤ b := by
  unfold intRangeIncl at h
  obtain ⟨i, hi, heq⟩ := List.mem_map.mp h
  rw [List.mem_range] at hi
  subst heq
  omega

theorem foldSteps_inv (P : List Int → Prop)
    (step : List Int → List Char → Except String (List Int))
    (hstep : ∀ acc part out, P acc → step acc part = .ok out → P out) :
    ∀ (parts : List (List Char)) (acc out : List Int),
      P acc → foldSteps step acc parts = .ok out → P out := by
  intro parts
  induction parts with
  | nil =>
    intro acc out hacc h
    simp only [foldSteps, Except.ok.injEq] at h
    exact h ▸ hacc
  | cons p ps ih =>
    intro acc out hacc h
    simp only [foldSteps] at h
    split at h
    · exact ih _ out (hstep acc p _ hacc (by assumption)) h
    · exact absurd h (by simp)

theorem validate_step_bounds (acc : List Int) (part : List Char)
    (out : List Int) (hacc : ∀ p ∈ acc, 1 ≤ p ∧ p ≤ 65535)
    (h : validate_step acc part = .ok out) :
    ∀ p ∈ out, 1 ≤ p ∧ p ≤ 65535 := by
  unfold validate_step at h
  split at h
  · split at h
    · split at h
      · split at h
        · exact absurd h (by simp)
        · split at h
          · exact absurd h (by simp)
          · simp only [Except.ok.injEq] at h
            intro p hp
            rw [← h] at hp
            rcases List.mem_append.mp hp with h1 | h2
            · exact hacc p h1
            · have := mem_intRangeIncl h2
              omega
      · exact absurd h (by simp)
      · exact absurd h (by simp)
    · exact absurd h (by simp)
  · split at h
    · split at h
      · exact absurd h (by simp)
      · simp only [Except.ok.injEq] at h
        intro p hp
        rw [← h] at hp
        rcases List.mem_append.mp hp with h1 | h2
        · exact hacc p h1
        · simp only [List.mem_singleton] at h2
          omega
    · exact absurd h (by simp)

theorem cons_set_perm : ∀ (t : List Nat) (k : Nat) (a b : Nat),
    t[k]? = some a → List.Perm (a :: t.set k b) (b :: t) := by
  intro t
  induction t with
  | nil => intro k a b h; simp at h
  | cons y t' ih =>
    intro k a b h
    cases k with
    | zero =>
      simp only [List.getElem?_cons_zero, Option.some.injEq] at h
      subst h
      simpa [List.set] using List.Perm.swap b y t'
    | succ k =>
      simp only [List.getElem?_cons_succ] at h
      simp only [List.set_cons_succ]
      have h1 : List.Perm (a :: y :: t'.set k b) (y :: a :: t'.set k b) :=
        List.Perm.swap y a _
      have h2 : List.Perm (y :: a :: t'.set k b) (y :: b :: t') :=
        List.Perm.cons y (ih k a b h)
      have h3 : List.Perm (y :: b :: t') (b :: y :: t') := List.Perm.swap b y t'
      exact (h1.trans h2).trans h3

theorem set_set_perm : ∀ (xs : List Nat) (i j a b : Nat),
    xs[i]? = some a → xs[j]? = some b →
    List.Perm ((xs.set i b).set j a) xs := by
  intro xs
  induction xs with
  | nil => intro i j a b h _; simp at h
  | cons x t ih =>
    intro i j a b hi hj
    cases i with
    | zero =>
      simp only [List.getElem?_cons_zero, Option.some.injEq] at hi
      subst hi
      cases j with
      | zero =>
        simp only [List.getElem?_cons_zero, Option.some.injEq] at hj
        subst hj
        simp [List.set]
      | succ l =>
        simp only [List.getElem?_cons_succ] at hj
        simp only [List.set, List.set_cons_succ]
        exact cons_set_perm t l b x hj
    | succ k =>
      simp only [List.getElem?_cons_succ] at hi
      cases j with
      | zero =>
        simp only [List.getElem?_cons_zero, Option.some.injEq] at hj
        subst hj
        simp only [List.set_cons_succ, List.set]
        exact cons_set_perm t k a x hi
      | succ l =>
        simp only [List.getElem?_cons_succ] at hj
        simp only [List.set_cons_succ]
        exact List.Perm.cons x (ih k l a b hi hj)

theorem listSwap_perm (xs : List Nat) (i j : Nat) :
    List.Perm (listSwap xs i j) xs := by
  unfold listSwap
  split
  · exact set_set_perm xs i j _ _ (by assumption) (by assumption)
  · exact List.Perm.refl xs

theorem fyGo_perm (rand : Nat → Nat) :
    ∀ (i : Nat) (xs : List Nat), List.Perm (fyGo rand i xs) xs := by
  intro i
  induction i with
  | zero => intro xs; exact List.Perm.refl xs
  | succ n ih =>
    intro xs
    simp only [fyGo]
    exact (ih _).trans (listSwap_perm xs (n + 1) (rand (n + 1) % (n + 2)))

theorem pyShuffle_perm (rand : Nat → Nat) (xs : List Nat) :
    List.Perm (pyShuffle rand xs) xs :=
  fyGo_perm rand (xs.length - 1) xs

theorem mem_dictInsert {m : List (Nat × PortData)} {k : Nat} {v : PortData}
    {x : Nat × PortData} (h : x ∈ dictInsert m k v) :
    x = (k, v) ∨ x ∈ m := by
  unfold dictInsert at h
  split at h
  · rcases List.mem_map.mp h with ⟨kv, hkv, heq⟩
    split at heq
    · exact Or.inl heq.symm
    · exact Or.inr (heq ▸ hkv)
  · rcases List.mem_append.mp h with h1 | h2
    · exact Or.inr h1
    · exact Or.inl (by simpa using h2)

theorem collect_open_mem (P : Nat × PortData → Prop)
    (results : List WorkerResult)
    (hres : ∀ r ∈ results, r.is_open = true → P (r.port, mkPortData r)) :
    ∀ x ∈ collect_open results, P x := by
  suffices haux : ∀ (rs : List WorkerResult) (acc : List (Nat × PortData)),
      (∀ r ∈ rs, r.is_open = true → P (r.port, mkPortData r)) →
      (∀ x ∈ acc, P x) →
      ∀ x ∈ rs.foldl
        (fun acc r =>
          if r.is_open then dictInsert acc r.port (mkPortData r) else acc)
        acc, P x by
    intro x hx
    exact haux results [] hres (by simp) x hx
  intro rs
  induction rs with
  | nil => intro acc _ h2 x hx; exact h2 x hx
  | cons r rs ih =>
    intro acc h1 h2 x hx
    simp only [List.foldl_cons] at hx
    refine ih _ (fun r' hr' => h1 r' (by simp [hr'])) ?_ x hx
    intro y hy
    by_cases hro : r.is_open = true
    · rw [if_pos hro] at hy
      rcases mem_dictInsert hy with h3 | h4
      · rw [h3]; exact h1 r (by simp) hro
      · exact h2 y h4
    · rw [if_neg hro] at hy
      exact h2 y hy

theorem tls_step_eq (s : SSLRecord) (p : Nat) (sv : String) :
    tls_step s p sv
      = ⟨"", "", "", if ssl_branch sv p then some s else none⟩ := by
  unfold tls_step; split_ifs <;> rfl

theorem worker_event (o : NetOracle) (p : Nat) :
    (scan_port_worker o p).2 = .portDone p (test_port (o.connect p)) := rfl

theorem filter_warn (p : Prop) [Decidable p] (msg : String) :
    ((if p then [ProgressEvent.advisory 0 msg] else []).filter isPortEvent)
      = [] := by
  split <;> rfl

theorem events_filter_map (o : NetOracle) (l : List Nat) :
    ((l.map fun p => (scan_port_worker o p).2).filter isPortEvent)
      = l.map fun p => (scan_port_worker o p).2 := by
  induction l with
  | nil => rfl
  | cons p ps ih =>
    simp only [List.map_cons, List.filter_cons]
    rw [show isPortEvent (scan_port_worker o p).2 = true from rfl]
    simpa using ih

theorem eventPort_map (o : NetOracle) (l : List Nat) :
    ((l.map fun p => (scan_port_worker o p).2).map eventPort) = l := by
  induction l with
  | nil => rfl
  | cons p ps ih =>
    simp only [List.map_cons]
    rw [show eventPort (scan_port_worker o p).2 = p from rfl, ih]

theorem events_filter_not_map (o : NetOracle) (l : List Nat) :
    ((l.map fun p => (scan_port_worker o p).2).filter
      (fun e => !isPortEvent e)) = [] := by
  induction l with
  | nil => rfl
  | cons p ps ih =>
    simp only [List.map_cons, List.filter_cons]
    rw [show (!isPortEvent (scan_port_worker o p).2) = false from rfl]
    simpa using ih

theorem http_read_loop_bound : ∀ (chunks : List Nat) (acc : Nat),
    acc ≤ 8192 → (∀ c ∈ chunks, c ≤ 4096) →
    http_read_loop acc chunks ≤ 12288 := by
  intro chunks
  induction chunks with
  | nil =>
    intro acc h1 _
    simp only [http_read_loop]
    omega
  | cons c cs ih =>
    intro acc h1 h2
    have hc : c ≤ 4096 := h2 c (by simp)
    simp only [http_read_loop]
    split
    · omega
    · split
      · omega
      · exact ih (acc + c) (by omega) (fun x hx => h2 x (by simp [hx]))

/-! ## Claim theorems -/

/-- C1: the claim says stop makes a running scan terminally "stopped"
(no later step of the same scan changes the status) and that stop on an
already-terminal scan leaves it unchanged. The code violates both:
`api_stop_scan` never signals the worker thread, which, when
`scan_ports` returns, unconditionally overwrites the status with
`'completed'`; and a stop request on a `'completed'` scan rewrites its
status to `'stopped'`. This theorem exhibits both traces. -/
theorem c1_stop_not_terminal :
    (scanStep (scanStep initScanState .stopRequest) (.workerFinish [])).status
        = ScanStatus.completed
    ∧ (scanStep (scanStep initScanState (.workerFinish [])) .stopRequest).status
        = ScanStatus.stopped
    ∧ ScanStatus.completed ≠ ScanStatus.stopped := by
  refine ⟨rfl, rfl, by decide⟩

/-- C2 counterexample: with one port and requested concurrency 3 on a
1-CPU platform (cap 2), a full run makes 2 progress-callback
invocations, not one per port: the advisory warning call is an extra
invocation with port argument 0. -/
theorem c2_counterexample :
    (scan_ports closedNet zeroRand [80] 3 1).events.length
      ≠ ([80] : List Nat).length := by decide

/-- C2 amended: a full (non-stopped) run probes each port exactly once
(the probed ports are a permutation of P) and makes exactly one
per-port progress-callback invocation per port (the per-port events,
in order, carry a permutation of P). When the requested concurrency
does not exceed the platform cap of twice the CPU count, the callback
invocations total exactly the number of ports; when it exceeds the
cap, they total one more than the number of ports, the single extra
invocation being an advisory one whose port argument is 0. -/
theorem c2_one_event_per_port (o : NetOracle) (rand : Nat → Nat)
    (ports : List Nat) (tc cpu : Nat) :
    List.Perm (scan_ports o rand ports tc cpu).probes ports
    ∧ List.Perm
        (((scan_ports o rand ports tc cpu).events.filter isPortEvent).map
          eventPort) ports
    ∧ (tc ≤ cpu * 2 →
        (scan_ports o rand ports tc cpu).events.length = ports.length)
    ∧ (cpu * 2 < tc →
        (scan_ports o rand ports tc cpu).events.length = ports.length + 1
        ∧ (((scan_ports o rand ports tc cpu).events.filter
              (fun e => !isPortEvent e)).map eventPort) = [0]) := by
  have hperm := pyShuffle_perm rand ports
  refine ⟨hperm, ?_, ?_, ?_⟩
  · simp only [scan_ports, List.filter_append, List.map_append,
      List.map_map, Function.comp_def]
    rw [filter_warn, events_filter_map, eventPort_map]
    simpa using hperm
  · intro hle
    simp only [scan_ports, List.map_map]
    rw [if_neg (by omega)]
    simpa using hperm.length_eq
  · intro hgt
    have hlen := hperm.length_eq
    constructor
    · simp only [scan_ports, List.map_map]
      rw [if_pos (by omega)]
      simp [hlen]
    · simp only [scan_ports, List.filter_append, List.map_append,
        List.map_map, Function.comp_def]
      rw [if_pos (by omega), events_filter_not_map]
      rfl

/-- C2 amended, witness: a concrete full run with two ports and
concurrency within the platform cap makes exactly two callback
invocations, and one with a single port and concurrency 3 above the
1-CPU cap of 2 makes exactly two invocations, the extra one being the
advisory call with port argument 0. -/
theorem c2_one_event_per_port_witness :
    (scan_ports closedNet zeroRand [80, 443] 2 1).events.length
        = ([80, 443] : List Nat).length
    ∧ (scan_ports closedNet zeroRand [80] 3 1).events.length
        = ([80] : List Nat).length + 1
    ∧ (((scan_ports closedNet zeroRand [80] 3 1).events.filter
          (fun e => !isPortEvent e)).map eventPort) = [0] :=
  ⟨(c2_one_event_per_port closedNet zeroRand [80, 443] 2 1).2.2.1 (by decide),
   ((c2_one_event_per_port closedNet zeroRand [80] 3 1).2.2.2 (by decide)).1,
   ((c2_one_event_per_port closedNet zeroRand [80] 3 1).2.2.2 (by decide)).2⟩

/-- C3 counterexample: the parser actually used by the scan API,
`parse_port_range`, performs no validation: on input "70000" it
succeeds and returns a port outside the range 1 to 65535 instead of
failing. -/
theorem c3_counterexample :
    parse_port_range ("70000".data) = .ok [70000]
    ∧ ¬ ((70000 : Int) ≤ 65535) := ⟨rfl, by decide⟩

/-- C3 amended: parsing is split between two functions. The web-layer
`parse_port_range` expands comma-separated singles and ranges,
deduplicates and sorts, and maps empty input to the default list, but
validates nothing (out-of-range values are returned, an inverted range
silently yields no ports). The engine's `validate_port_range` checks
every value into the range 1 to 65535 and rejects inverted ranges, but
raises on empty input instead of returning the defaults. Both return
the expected expansion on the scenario input "80,443,8000-8002". -/
theorem c3_split_parsers (s : List Char) (ps : List Int)
    (h : validate_port_range s = .ok ps) :
    (∀ p ∈ ps, 1 ≤ p ∧ p ≤ 65535)
    ∧ parse_port_range [] = .ok DEFAULT_PORTS
    ∧ parse_port_range ("80,443,8000-8002".data)
        = .ok [80, 443, 8000, 8001, 8002]
    ∧ validate_port_range ("80,443,8000-8002".data)
        = .ok [80, 443, 8000, 8001, 8002]
    ∧ validate_port_range ("9-5".data) = .error "Invalid range (start > end)"
    ∧ validate_port_range [] = .error "Port range cannot be empty"
    ∧ parse_port_range ("9-5".data) = .ok [] := by
  refine ⟨?_, rfl, rfl, rfl, rfl, rfl, rfl⟩
  intro p hp
  unfold validate_port_range at h
  split at h
  · exact absurd h (by simp)
  · split at h
    · rename_i l hfold
      simp only [Except.ok.injEq] at h
      have hall := foldSteps_inv (fun acc => ∀ q ∈ acc, 1 ≤ q ∧ q ≤ 65535)
        validate_step validate_step_bounds _ [] l (by simp) hfold
      exact hall p (mem_sortedUnique (h ▸ hp))
    · exact absurd h (by simp)

/-- C3 amended, witness: instantiated on the scenario input
"80,443,8000-8002". -/
theorem c3_split_parsers_witness :
    (∀ p ∈ ([80, 443, 8000, 8001, 8002] : List Int), 1 ≤ p ∧ p ≤ 65535)
    ∧ parse_port_range [] = .ok DEFAULT_PORTS
    ∧ parse_port_range ("80,443,8000-8002".data)
        = .ok [80, 443, 8000, 8001, 8002]
    ∧ validate_port_range ("80,443,8000-8002".data)
        = .ok [80, 443, 8000, 8001, 8002]
    ∧ validate_port_range ("9-5".data) = .error "Invalid range (start > end)"
    ∧ validate_port_range [] = .error "Port range cannot be empty"
    ∧ parse_port_range ("9-5".data) = .ok [] :=
  c3_split_parsers ("80,443,8000-8002".data) [80, 443, 8000, 8001, 8002] rfl

/-- C4: when host resolution fails, `scan_worker` marks the scan
`'failed'` with an empty result mapping, stores that empty mapping, and
probes no port. -/
theorem c4_resolution_failure (resolve : Option String) (o : NetOracle)
    (rand : Nat → Nat) (ports : List Nat) (tc cpu : Nat)
    (h : resolve = none) :
    (scan_worker resolve o rand ports tc cpu).state.status = ScanStatus.failed
    ∧ (scan_worker resolve o rand ports tc cpu).state.results = []
    ∧ (scan_worker resolve o rand ports tc cpu).state.stored_results = some []
    ∧ (scan_worker resolve o rand ports tc cpu).probes = [] := by
  subst h
  exact ⟨rfl, rfl, rfl, rfl⟩

/-- C4 witness: a concrete failed resolution with a three-port list. -/
theorem c4_resolution_failure_witness :
    (scan_worker none closedNet zeroRand [22, 80, 443] 4 2).state.status
        = ScanStatus.failed
    ∧ (scan_worker none closedNet zeroRand [22, 80, 443] 4 2).state.results = []
    ∧ (scan_worker none closedNet zeroRand [22, 80, 443] 4 2).state.stored_results
        = some []
    ∧ (scan_worker none closedNet zeroRand [22, 80, 443] 4 2).probes = [] :=
  c4_resolution_failure none closedNet zeroRand [22, 80, 443] 4 2 rfl

/-- C5: the worker count handed to the thread pool never exceeds any of
the requested concurrency, the number of ports, and the platform cap of
twice the CPU count. -/
theorem c5_pool_bound (o : NetOracle) (rand : Nat → Nat)
    (ports : List Nat) (tc cpu : Nat) :
    (scan_ports o rand ports tc cpu).pool_workers
      ≤ min (min tc ports.length) (cpu * 2) := by
  have hlen : (pyShuffle rand ports).length = ports.length :=
    (pyShuffle_perm rand ports).length_eq
  simp only [scan_ports, optimal_thread_count, effective_thread_count,
    capped_thread_count, MAX_THREAD_COUNT, hlen]
  split <;> omega

/-- C6: every entry of the final result mapping belongs to a port the
prober reported open, and its service field is exactly the classifier's
answer for that port (a string, hence never null). -/
theorem c6_open_only (o : NetOracle) (rand : Nat → Nat) (ports : List Nat)
    (tc cpu p : Nat) (d : PortData)
    (h : (p, d) ∈ (scan_ports o rand ports tc cpu).open_ports) :
    test_port (o.connect p) = true
    ∧ d.service = fetch_service_info o.servByPort p := by
  simp only [scan_ports] at h
  refine collect_open_mem
    (fun x => test_port (o.connect x.1) = true
      ∧ x.2.service = fetch_service_info o.servByPort x.1)
    (((pyShuffle rand ports).map (scan_port_worker o)).map (·.1))
    ?_ (p, d) h
  intro r hr hopen
  rcases List.mem_map.mp hr with ⟨wr, hwr, hwr1⟩
  rcases List.mem_map.mp hwr with ⟨q, _, hq⟩
  subst hq
  subst hwr1
  refine ⟨hopen, ?_⟩
  show (mkPortData (scan_port_worker o q).1).service
      = fetch_service_info o.servByPort q
  have hopen' : test_port (o.connect q) = true := hopen
  simp [scan_port_worker, mkPortData, hopen']

/-- C6 witness: a concrete scan of port 80 against a network where the
connect succeeds; the single record's service is the classifier's
"HTTP". -/
theorem c6_open_only_witness :
    test_port (openNet.connect 80) = true
    ∧ (⟨"HTTP", "", "", "", none⟩ : PortData).service
        = fetch_service_info openNet.servByPort 80 :=
  c6_open_only openNet zeroRand [80] 1 1 80 ⟨"HTTP", "", "", "", none⟩
    (by decide)

/-- C7: the probe is a total boolean function of the socket outcome: an
exception inside the attempt yields false, and true is returned exactly
when the connect reported success (code 0) within the timeout. -/
theorem c7_probe_boolean (e : String) (c : Int) :
    test_port (.error e) = false
    ∧ (test_port (.ok c) = true ↔ c = 0) := by
  refine ⟨rfl, ?_⟩
  simp [test_port]

/-- C7 witness: the successful connect code 0 yields true. -/
theorem c7_probe_boolean_witness : test_port (Except.ok 0) = true :=
  (c7_probe_boolean "gaierror" 0).2.mpr rfl

/-- C8: inspection is total (the model returns a record with the four
fields banner, version, server, ssl_cert for every input) and its
branches are isolated: the ssl_cert field is exactly the TLS helper's
outcome when the TLS branch triggers and the empty default otherwise,
regardless of the other helpers; the banner, version and server fields
do not depend on the TLS outcome; and when the HTTP and generic helpers
both fail (empty outcomes) all three text fields are the empty
defaults, whatever happened in the TLS branch. -/
theorem c8_branch_isolation (port : Nat) (service : String)
    (ssl1 ssl2 : SSLRecord) (http : HttpInfo) (proto : String) :
    (grab_banner ssl1 http proto port service).ssl_cert
        = (if ssl_branch service port then some ssl1 else none)
    ∧ (grab_banner ssl1 http proto port service).banner
        = (grab_banner ssl2 http proto port service).banner
    ∧ (grab_banner ssl1 http proto port service).version
        = (grab_banner ssl2 http proto port service).version
    ∧ (grab_banner ssl1 http proto port service).server
        = (grab_banner ssl2 http proto port service).server
    ∧ grab_banner ssl1 ⟨"", "", ""⟩ "" port service
        = ⟨"", "", "", if ssl_branch service port then some ssl1 else none⟩ := by
  refine ⟨?_, ?_, ?_, ?_, ?_⟩ <;>
    simp only [grab_banner] <;>
      split_ifs <;>
        simp_all [tls_step_eq]

/-- C9 counterexample: a response stream of three full 4096-byte chunks
makes the HTTP read loop accumulate 12288 bytes, exceeding the claimed
8192-byte cap (the loop only stops after the total passes 8192). -/
theorem c9_counterexample :
    http_read_loop 0 [4096, 4096, 4096] = 12288
    ∧ ¬ (http_read_loop 0 [4096, 4096, 4096] ≤ 8192) := by decide

/-- C9 amended: since each received chunk is at most 4096 bytes, the
HTTP banner grab accumulates at most 8192 + 4096 = 12288 response bytes
before stopping (it stops reading as soon as the total exceeds 8192, so
at most one further chunk lands after the 8 KiB mark). -/
theorem c9_read_cap (chunks : List Nat) (h : ∀ c ∈ chunks, c ≤ 4096) :
    http_read_loop 0 chunks ≤ 12288 :=
  http_read_loop_bound chunks 0 (by omega) h

/-- C9 amended, witness: a single full chunk stays within the bound. -/
theorem c9_read_cap_witness : http_read_loop 0 [4096] ≤ 12288 :=
  c9_read_cap [4096] (by decide)

/-- C10: the shuffle step permutes the caller's ports list in place
(the list the caller's variable refers to after the scan is the
shuffled one, holding the same multiset of ports) and modifies no other
engine state: the three timeout fields are untouched. -/
theorem c10_shuffle_frame (rand : Nat → Nat) (s : EngineState)
    (o : NetOracle) (ports : List Nat) (tc cpu : Nat) :
    List.Perm (shuffle_step rand s).ports s.ports
    ∧ (shuffle_step rand s).timeout = s.timeout
    ∧ (shuffle_step rand s).banner_timeout = s.banner_timeout
    ∧ (shuffle_step rand s).ssl_timeout = s.ssl_timeout
    ∧ (scan_ports o rand ports tc cpu).final_ports = pyShuffle rand ports
    ∧ List.Perm (scan_ports o rand ports tc cpu).final_ports ports :=
  ⟨pyShuffle_perm rand s.ports, rfl, rfl, rfl, rfl, pyShuffle_perm rand ports⟩

end PortStential
